import Mathlib

/-!
Shallow embedding of the nano_keras layer/optimizer engine
(`src/nano_keras/layers.py`, `src/nano_keras/optimizers/AdaMax.py`).

Numeric values are embedded as rationals (exact arithmetic in place of the
floating-point element types; the claims under study are about the algebraic
structure of the computations, not about rounding).  NumPy arrays of rank one
and two are embedded as `Arr1` / `Arr2` (a shape together with a total value
function; only indices inside the shape are meaningful), and arrays of
arbitrary rank as `NDArray` (a shape list together with the row-major flat
data).  NumPy broadcasting of a size-1 axis is embedded in `bop1` / `bop2`,
and a 0-d NumPy scalar is embedded as a size-1 `Arr1` (same broadcasting
behaviour against the 1-d arrays it meets here).  Python exceptions
(`ValueError` from broadcasting, the explicit `raise Exception`) are embedded
with `Except`.
-/

/-- Sum of `f 0 + f 1 + ... + f (n-1)`, the embedding of a NumPy sum over a
range of indices. -/

def sumR (n : Nat) (f : Nat → ℚ) : ℚ :=
  match n with
  | 0 => 0
  | m + 1 => sumR m f + f m

/-- Maximum of `f 0, ..., f (n-1)` for `n ≥ 1` (the embedding of `np.max`
over a non-empty slice; the value at `n = 0` is junk, `np.max` of an empty
slice raises and is never reached in the embedded code paths). -/

def maxR (n : Nat) (f : Nat → ℚ) : ℚ :=
  match n with
  | 0 => 0
  | 1 => f 0
  | m + 1 => max (maxR m f) (f m)

/-- Rank-1 NumPy array: a length and the element values (indices `≥ size`
are junk). -/

structure Arr1 where
  size : Nat
  val : Nat → ℚ

/-- Rank-2 NumPy array: a shape `(rows, cols)` and the element values. -/

structure Arr2 where
  rows : Nat
  cols : Nat
  val : Nat → Nat → ℚ

/-- Number of elements of a rank-2 array (`ndarray.size`). -/

def Arr2.size (a : Arr2) : Nat := a.rows * a.cols

/-- Arbitrary-rank NumPy array: a shape and the row-major flat data
(flat indices `≥ prod shape` are junk). -/

structure NDArray where
  shape : List Nat
  flat : Nat → ℚ

/-- Number of elements of an `NDArray` (`ndarray.size`). -/

def NDArray.size (a : NDArray) : Nat := a.shape.prod

/-- Broadcast of one axis: two axis lengths are compatible when they are
equal or one of them is `1` (NumPy broadcasting rule). -/

def bdim (a b : Nat) : Option Nat :=
  if a = b then some a else if a = 1 then some b else if b = 1 then some a else none

/-- Index into a possibly-broadcast axis: a length-1 axis is read at `0`. -/

def bidx (n : Nat) (i : Nat) : Nat := if n = 1 then 0 else i

/-- Elementwise binary operation on rank-1 arrays with NumPy broadcasting;
returns the `ValueError` branch when the sizes are incompatible. -/

def bop1 (f : ℚ → ℚ → ℚ) (a b : Arr1) : Except String Arr1 :=
  match bdim a.size b.size with
  | some n => .ok ⟨n, fun i => f (a.val (bidx a.size i)) (b.val (bidx b.size i))⟩
  | none => .error "operands could not be broadcast together"

/-- Elementwise binary operation on rank-2 arrays with NumPy broadcasting. -/

def bop2 (f : ℚ → ℚ → ℚ) (a b : Arr2) : Except String Arr2 :=
  match bdim a.rows b.rows, bdim a.cols b.cols with
  | some r, some c =>
      .ok ⟨r, c, fun i j =>
        f (a.val (bidx a.rows i) (bidx a.cols j)) (b.val (bidx b.rows i) (bidx b.cols j))⟩
  | _, _ => .error "operands could not be broadcast together"

/-- In-place addition `a += rhs` on a rank-1 array: the right-hand side must
broadcast to `a`'s exact shape (NumPy refuses to grow an output operand). -/

def iadd1 (a rhs : Arr1) : Except String Arr1 :=
  if rhs.size = a.size ∨ rhs.size = 1 then
    .ok ⟨a.size, fun i => a.val i + rhs.val (bidx rhs.size i)⟩
  else .error "non-broadcastable output operand"

/-- In-place addition `a += rhs` on a rank-2 array. -/

def iadd2 (a rhs : Arr2) : Except String Arr2 :=
  if (rhs.rows = a.rows ∨ rhs.rows = 1) ∧ (rhs.cols = a.cols ∨ rhs.cols = 1) then
    .ok ⟨a.rows, a.cols, fun i j => a.val i j + rhs.val (bidx rhs.rows i) (bidx rhs.cols j)⟩
  else .error "non-broadcastable output operand"

/-- Scalar times rank-1 array. -/

def smul1 (c : ℚ) (a : Arr1) : Arr1 := ⟨a.size, fun i => c * a.val i⟩

/-- Scalar times rank-2 array. -/

def smul2 (c : ℚ) (a : Arr2) : Arr2 := ⟨a.rows, a.cols, fun i j => c * a.val i j⟩

/-- Elementwise absolute value of a rank-1 array (`np.abs`). -/

def abs1 (a : Arr1) : Arr1 := ⟨a.size, fun i => |a.val i|⟩

/-- Elementwise absolute value of a rank-2 array (`np.abs`). -/

def abs2 (a : Arr2) : Arr2 := ⟨a.rows, a.cols, fun i j => |a.val i j|⟩

/-- Rank-1 array plus a scalar (`a + e`). -/

def sadd1 (a : Arr1) (c : ℚ) : Arr1 := ⟨a.size, fun i => a.val i + c⟩

/-- Rank-2 array plus a scalar (`a + e`). -/

def sadd2 (a : Arr2) (c : ℚ) : Arr2 := ⟨a.rows, a.cols, fun i j => a.val i j + c⟩

/-- Embedding of `np.zeros_like` for rank-1 arrays. -/

def zerosLike1 (a : Arr1) : Arr1 := ⟨a.size, fun _ => 0⟩

/-- Embedding of `np.zeros_like` for rank-2 arrays. -/

def zerosLike2 (a : Arr2) : Arr2 := ⟨a.rows, a.cols, fun _ _ => 0⟩

/-- Modelled from the spec: `Optimizer._fill_array` (defined in the optimizer
base class, which is not under `src/`; only its call sites in
`AdaMax.apply_gradients` are) zero-extends an accumulator array up to at
least the target shape while preserving the existing entries; the caller
then slices with `[0:target, ...]` to cut it down to exactly the target
shape.  Rank-1 version. -/

def fillArray1 (a : Arr1) (target : Nat) : Arr1 :=
  ⟨max a.size target, fun i => if i < a.size then a.val i else 0⟩

/-- Modelled from the spec: rank-2 version of `Optimizer._fill_array`
(zero-extension up to at least the target shape, existing entries kept). -/

def fillArray2 (a : Arr2) (tr tc : Nat) : Arr2 :=
  ⟨max a.rows tr, max a.cols tc,
   fun i j => if i < a.rows ∧ j < a.cols then a.val i j else 0⟩

/-- Basic slice `a[:t]` of a rank-1 array. -/

def slice1 (a : Arr1) (t : Nat) : Arr1 := ⟨min a.size t, a.val⟩

/-- Basic slice `a[0:tr, 0:tc]` of a rank-2 array. -/

def slice2 (a : Arr2) (tr tc : Nat) : Arr2 := ⟨min a.rows tr, min a.cols tc, a.val⟩

/-- Generic test for the `.ok` branch of an `Except`. -/

def exceptIsOk {ε α : Type} (r : Except ε α) : Bool :=
  match r with
  | .ok _ => true
  | .error _ => false

/-! ## AdaMax optimizer (src/nano_keras/optimizers/AdaMax.py) -/

/-- State of an `AdaMax` optimizer instance: hyperparameters, the four
moment accumulators `m_w, u_w, m_b, u_b` and the step counter `t`.
Weight-side arrays are rank 2, bias-side arrays rank 1 (the shapes used by
the layers in this repository). -/

structure AdaMaxState where
  learning_rate : ℚ
  beta1 : ℚ
  beta2 : ℚ
  e : ℚ
  adjust_biases_shape : Bool
  m_w : Arr2
  u_w : Arr2
  m_b : Arr1
  u_b : Arr1
  t : Nat

/-- Embedding of `AdaMax.apply_gradients`: increments the step counter,
lazily allocates the accumulators on first use (`self.m_w.size == 0`),
resizes the weight accumulators (and, only when `adjust_biases_shape` is
set, the bias accumulators) to the current parameter shapes, performs the
AdaMax moment updates, adds the scaled update to the parameters in place and
returns the new optimizer state with the updated `(weights, biases)`. -/

def adamaxApplyGradients (st : AdaMaxState) (weightGradients : Arr2) (biasGradients : Arr1)
    (weights : Arr2) (biases : Arr1) : Except String (AdaMaxState × Arr2 × Arr1) := do
  let t := st.t + 1
  let beta1T := st.beta1 ^ t
  let (m_w, u_w, m_b, u_b) :=
    if st.m_w.size = 0 then
      (zerosLike2 weights, zerosLike2 weights, zerosLike1 biases, zerosLike1 biases)
    else
      (st.m_w, st.u_w, st.m_b, st.u_b)
  let m_w := slice2 (fillArray2 m_w weights.rows weights.cols) weights.rows weights.cols
  let u_w := slice2 (fillArray2 u_w weights.rows weights.cols) weights.rows weights.cols
  let (m_b, u_b) :=
    if st.adjust_biases_shape then
      (slice1 (fillArray1 m_b biases.size) biases.size,
       slice1 (fillArray1 u_b biases.size) biases.size)
    else
      (m_b, u_b)
  let m_w ← bop2 (fun x y => x + y) (smul2 st.beta1 m_w) (smul2 (1 - st.beta1) weightGradients)
  let u_w ← bop2 max (smul2 st.beta2 u_w) (abs2 weightGradients)
  let m_b ← bop1 (fun x y => x + y) (smul1 st.beta1 m_b) (smul1 (1 - st.beta1) biasGradients)
  let u_b ← bop1 max (smul1 st.beta2 u_b) (abs1 biasGradients)
  let wRatio ← bop2 (fun x y => x / y) m_w (sadd2 u_w st.e)
  let weights ← iadd2 weights (smul2 (st.learning_rate / (1 - beta1T)) wRatio)
  let bRatio ← bop1 (fun x y => x / y) m_b (sadd1 u_b st.e)
  let biases ← iadd1 biases (smul1 (st.learning_rate / (1 - beta1T)) bRatio)
  return ({ st with m_w := m_w, u_w := u_w, m_b := m_b, u_b := u_b, t := t },
          weights, biases)

/-- Optimizer state extracted from a successful `apply_gradients` result
(junk value on the error branch, which the lemmas exclude). -/

def resState (r : Except String (AdaMaxState × Arr2 × Arr1)) : AdaMaxState :=
  match r with
  | .ok (s, _, _) => s
  | .error _ =>
      ⟨0, 0, 0, 0, false, ⟨0, 0, fun _ _ => 0⟩, ⟨0, 0, fun _ _ => 0⟩,
       ⟨0, fun _ => 0⟩, ⟨0, fun _ => 0⟩, 0⟩

/-- Updated weights extracted from a successful `apply_gradients` result. -/

def resW (r : Except String (AdaMaxState × Arr2 × Arr1)) : Arr2 :=
  match r with
  | .ok (_, w, _) => w
  | .error _ => ⟨0, 0, fun _ _ => 0⟩

/-- Updated biases extracted from a successful `apply_gradients` result. -/

def resB (r : Except String (AdaMaxState × Arr2 × Arr1)) : Arr1 :=
  match r with
  | .ok (_, _, b) => b
  | .error _ => ⟨0, fun _ => 0⟩

/-- Concrete AdaMax state used in the C3 witness: all shapes are `1`,
hyperparameters `lr = 1, beta1 = beta2 = 1/2, eps = 1`. -/

def c3st : AdaMaxState :=
  ⟨1, 1/2, 1/2, 1, false, ⟨1, 1, fun _ _ => 2⟩, ⟨1, 1, fun _ _ => 3⟩,
   ⟨1, fun _ => 4⟩, ⟨1, fun _ => 5⟩, 0⟩

/-- Concrete weight gradient for the C3 witness. -/

def c3wg : Arr2 := ⟨1, 1, fun _ _ => 6⟩

/-- Concrete bias gradient for the C3 witness. -/

def c3bg : Arr1 := ⟨1, fun _ => 7⟩

/-- Concrete weights for the C3 witness. -/

def c3w : Arr2 := ⟨1, 1, fun _ _ => 8⟩

/-- Concrete biases for the C3 witness. -/

def c3b : Arr1 := ⟨1, fun _ => 9⟩

/-- Fresh AdaMax optimizer (empty accumulators, default
`adjust_biases_shape = False`) used for the C4 counterexample. -/

def c4fresh : AdaMaxState :=
  ⟨1, 1/2, 1/2, 1, false, ⟨0, 0, fun _ _ => 0⟩, ⟨0, 0, fun _ _ => 0⟩,
   ⟨0, fun _ => 0⟩, ⟨0, fun _ => 0⟩, 0⟩

/-- First-call weight gradient (shape 4×4) for the C4 counterexample. -/

def c4wg1 : Arr2 := ⟨4, 4, fun _ _ => 1⟩

/-- First-call bias gradient (shape 4) for the C4 counterexample. -/

def c4bg1 : Arr1 := ⟨4, fun _ => 1⟩

/-- First-call weights (shape 4×4) for the C4 counterexample. -/

def c4w1 : Arr2 := ⟨4, 4, fun _ _ => 1⟩

/-- First-call biases (shape 4) for the C4 counterexample. -/

def c4b1 : Arr1 := ⟨4, fun _ => 1⟩

/-- Second-call weight gradient (grown shape 4×6). -/

def c4wg2 : Arr2 := ⟨4, 6, fun _ _ => 1⟩

/-- Second-call bias gradient (grown shape 6). -/

def c4bg2 : Arr1 := ⟨6, fun _ => 1⟩

/-- Second-call weights (grown shape 4×6). -/

def c4w2 : Arr2 := ⟨4, 6, fun _ _ => 1⟩

/-- Second-call biases (grown shape 6). -/

def c4b2 : Arr1 := ⟨6, fun _ => 1⟩

/-- Warm AdaMax state (4×4 weight accumulators holding the value 2 resp. 3)
used for the C4 witness of a `[4,4] → [4,6]` weight-shape growth. -/

def c4gst : AdaMaxState :=
  ⟨1, 1/2, 1/2, 1, false, ⟨4, 4, fun _ _ => 2⟩, ⟨4, 4, fun _ _ => 3⟩,
   ⟨4, fun _ => 4⟩, ⟨4, fun _ => 5⟩, 1⟩

/-- Grown weight gradient (4×6) for the C4 witness. -/

def c4gwg : Arr2 := ⟨4, 6, fun _ _ => 7⟩

/-- Bias gradient (unchanged shape 4) for the C4 witness. -/

def c4gbg : Arr1 := ⟨4, fun _ => 1⟩

/-- Grown weights (4×6) for the C4 witness. -/

def c4gw : Arr2 := ⟨4, 6, fun _ _ => 8⟩

/-- Biases (unchanged shape 4) for the C4 witness. -/

def c4gb : Arr1 := ⟨4, fun _ => 9⟩

/-! ## MaxPool2D layer (src/nano_keras/layers.py) -/

/-- Kind of a raised Python exception (the two kinds this development
distinguishes). -/

inductive PyExcKind where
  | exception
  | notImplementedError
deriving DecidableEq

/-- A raised Python exception: its class and its message. -/

structure PyExc where
  kind : PyExcKind
  msg : String
deriving DecidableEq

/-- Exception kind extracted from a raising computation (`none` when the
computation returned normally). -/

def raisedKind {α : Type} (r : Except PyExc α) : Option PyExcKind :=
  match r with
  | .error e => some e.kind
  | .ok _ => none

/-- State of a `MaxPool2D` layer.  `MaxPool2D.__init__` stores only
`pool_size`, `strides` and `name`; it never sets `weights`/`biases`
attributes, which is recorded with the two `Option` fields. -/

structure MaxPool2DState where
  pool_size : Nat × Nat
  strides : Nat × Nat
  name : String
  weights : Option NDArray
  biases : Option NDArray

/-- Embedding of `MaxPool2D.__init__`. -/

def MaxPool2D.init (pool_size strides : Nat × Nat) (name : String) : MaxPool2DState :=
  ⟨pool_size, strides, name, none, none⟩

/-- Embedding of `MaxPool2D.__call__` on a 2-d input of shape `(H, W)`:
each output position holds `np.max` of its pooling window (entries outside
the `height × width` output region are junk).  No final overwrite happens
in the 2-d branch. -/

def MaxPool2D.call2d (st : MaxPool2DState) (x : Nat → Nat → ℚ) : Nat → Nat → ℚ :=
  fun i j =>
    maxR st.pool_size.1 (fun di =>
      maxR st.pool_size.2 (fun dj =>
        x (i * st.strides.1 + di) (j * st.strides.2 + dj)))

/-- Embedding of `MaxPool2D.__call__` on a 3-d input of shape `(H, W, C)`:
`output[i, j] = np.max(x[i0:i1, j0:j1])` takes the maximum over the whole
3-d window slice — all channels included — and broadcasts it to every
channel of `output[i, j]`; afterwards the code executes
`output[-1, -1, :] = x[-1, -1, :]`, overwriting the last output spatial
position with the raw input values at the last input spatial position. -/

def MaxPool2D.call3d (st : MaxPool2DState) (x : Nat → Nat → Nat → ℚ)
    (H W C : Nat) : Nat → Nat → Nat → ℚ :=
  fun i j c =>
    let height := (H - st.pool_size.1) / st.strides.1 + 1
    let width := (W - st.pool_size.2) / st.strides.2 + 1
    if i = height - 1 ∧ j = width - 1 then
      x (H - 1) (W - 1) c
    else
      maxR st.pool_size.1 (fun di =>
        maxR st.pool_size.2 (fun dj =>
          maxR C (fun c2 =>
            x (i * st.strides.1 + di) (j * st.strides.2 + dj) c2)))

/-- Embedding of `MaxPool2D.backpropagate`: the method raises
`Exception("MaxPool2D backpropagation is not implemented yet, ...")` as its
first statement, so the layer state and the optimizer state are returned
untouched alongside the raised exception. -/

def MaxPool2D.backpropagate (st : MaxPool2DState) (opt : AdaMaxState) (gradient : NDArray) :
    (Except PyExc NDArray) × MaxPool2DState × AdaMaxState :=
  (.error ⟨PyExcKind.exception,
    "MaxPool2D backpropagation is not implemented yet, if you really need it set the strides in Conv2D to something other than (1, 1)"⟩,
   st, opt)

/-- Concrete MaxPool2D layer for the C2 counterexample. -/

def c2st : MaxPool2DState := MaxPool2D.init (2, 2) (2, 2) "MaxPool2D"

/-- Concrete optimizer for the C2 counterexample. -/

def c2opt : AdaMaxState :=
  ⟨1/1000, 9/10, 999/1000, 1/10000000, false, ⟨0, 0, fun _ _ => 0⟩, ⟨0, 0, fun _ _ => 0⟩,
   ⟨0, fun _ => 0⟩, ⟨0, fun _ => 0⟩, 0⟩

/-- Concrete gradient for the C2 counterexample. -/

def c2grad : NDArray := ⟨[2, 2], fun _ => 1⟩

/-- Concrete MaxPool2D layer for the C10 witness (pool `(2,2)`,
strides `(2,2)`). -/

def c10st : MaxPool2DState := MaxPool2D.init (2, 2) (2, 2) "MaxPool2D"

/-- Concrete 3-d input (shape `(2, 2, 1)`) for the C10 witness. -/

def c10x3 : Nat → Nat → Nat → ℚ := fun i j _ => (i : ℚ) + 10 * j

/-- Concrete 2-d input (shape `(4, 4)`) for the C10 witness, the example
matrix from the spec. -/

def c10x2 : Nat → Nat → ℚ := fun i j =>
  if i = 0 then (if j = 0 then 2 else if j = 1 then 3 else if j = 2 then 5 else 9)
  else if i = 1 then (if j = 0 then 4 else if j = 1 then 5 else if j = 2 then 2 else 6)
  else if i = 2 then (if j = 0 then 7 else if j = 1 then 4 else if j = 2 then 6 else 5)
  else (if j = 0 then 8 else if j = 1 then 3 else if j = 2 then 4 else 1)

/-! ## Conv2D layer (src/nano_keras/layers.py) -/

/-- Embedding of `Conv2D.im2col`: entry `(r, t)` of the column matrix.
With `kh = kernel_size[0]`, `kw = kernel_size[1]` and `C` input channels,
the index vectors built by the code give
`i0[r] = (r mod (kh*kw)) div kw`, `j0[r] = r mod kw`,
`k[r] = r div (kh*kw)` (channel slowest along the row axis), and for column
`t` of the `height*width` output positions
`i1[t] = strides[0] * (t div width)`, `j1[t] = strides[1] * (t mod width)`,
so `col[r, t] = x[i0[r] + i1[t], j0[r] + j1[t], k[r]]`. -/

def Conv2D.im2col (kernel_size strides : Nat × Nat) (width : Nat)
    (x : Nat → Nat → Nat → ℚ) (r t : Nat) : ℚ :=
  x ((r % (kernel_size.1 * kernel_size.2)) / kernel_size.2 + strides.1 * (t / width))
    (r % kernel_size.2 + strides.2 * (t % width))
    (r / (kernel_size.1 * kernel_size.2))

/-- Embedding of `self.weights.reshape(self.number_of_filters, -1)`: the
4-d weight tensor of shape `(kh, kw, C, F)` is flattened row-major (filter
index fastest, then channel, then kernel column, then kernel row) and cut
into `F` rows of length `kh*kw*C`; entry `(f, r)` is the flat element at
`f * (kh*kw*C) + r`. -/

def Conv2D.weightsCol (kernel_size : Nat × Nat) (C F : Nat)
    (w : Nat → Nat → Nat → Nat → ℚ) (f r : Nat) : ℚ :=
  let u := f * (kernel_size.1 * kernel_size.2 * C) + r
  w (u / (kernel_size.2 * C * F)) ((u / (C * F)) % kernel_size.2) ((u / F) % C) (u % F)

/-- Embedding of `Conv2D.__call__` on an input of shape `(H, W, C)`:
`weighted_sum = weights_col · im2col(x)` followed by
`reshape(F, height, width).transpose(1, 2, 0)` and the activation, so that
output entry `(oi, oj, f)` is the activation of row `f` of the product
taken at column `oi * width + oj` (no bias is added in this forward pass). -/

def Conv2D.forward (act : ℚ → ℚ) (kernel_size strides : Nat × Nat) (F : Nat)
    (w : Nat → Nat → Nat → Nat → ℚ) (x : Nat → Nat → Nat → ℚ)
    (H W C : Nat) (oi oj f : Nat) : ℚ :=
  let width := (W - kernel_size.2) / strides.2 + 1
  act (sumR (kernel_size.1 * kernel_size.2 * C) (fun r =>
    Conv2D.weightsCol kernel_size C F w f r
      * Conv2D.im2col kernel_size strides width x r (oi * width + oj)))

/-- Direct nested-loop reference convolution, written from the spec's words
(the statement that the im2col lowering "becomes a single dense matrix
product" equal to the direct convolution): output `(oi, oj, f)` is the
activation of the sum over the `kh × kw × C` window of
`x[oi*s0 + p, oj*s1 + q, c] * w[p, q, c, f]` (summation order is
irrelevant over exact rationals). -/

def conv2dDirectSpec (act : ℚ → ℚ) (kernel_size strides : Nat × Nat)
    (w : Nat → Nat → Nat → Nat → ℚ) (x : Nat → Nat → Nat → ℚ)
    (C : Nat) (oi oj f : Nat) : ℚ :=
  act (sumR kernel_size.1 (fun p =>
    sumR kernel_size.2 (fun q =>
      sumR C (fun c =>
        x (strides.1 * oi + p) (strides.2 * oj + q) c * w p q c f))))

/-- Failing input for C1: shape `(2, 1, 2)`, the only nonzero entry is
`x[1, 0, 0] = 1`. -/

def c1x : Nat → Nat → Nat → ℚ := fun p q c =>
  if p = 1 ∧ q = 0 ∧ c = 0 then 1 else 0

/-- Failing weights for C1: kernel `(2, 1)`, 2 channels, 1 filter, the only
nonzero entry is `w[0, 0, 1, 0] = 1`. -/

def c1w : Nat → Nat → Nat → Nat → ℚ := fun p q c f =>
  if p = 0 ∧ q = 0 ∧ c = 1 ∧ f = 0 then 1 else 0

/-! ## Conv1D layer (src/nano_keras/layers.py) -/

/-- A predecessor layer's reported output shape: either a bare int (Dense,
MaxPool1D, Flatten report ints) or a tuple. -/

def ShapeVal : Type := Nat ⊕ List Nat

/-- Number of elements of `np.array(input_shape)`: a bare int becomes a 0-d
array of size 1; a tuple becomes a 1-d array with one entry per component. -/

def npArrayOfShapeSize (s : ShapeVal) : Nat :=
  match s with
  | .inl _ => 1
  | .inr l => l.length

/-- Embedding of `Conv1D.output_shape`: the code computes
`np.array(input_shape).size // self.strides, self.number_of_filters` — the
element count of the *shape value itself* (not of the input) floor-divided
by the strides. -/

def Conv1D.output_shape (strides filters : Nat) (input_shape : ShapeVal) : Nat × Nat :=
  (npArrayOfShapeSize input_shape / strides, filters)

/-- Embedding of the row count of the array produced by `Conv1D.__call__`:
the forward pass allocates `np.zeros((x.size // self.strides,
self.number_of_filters))` and returns an array with that many rows
(trailing rows beyond the last full kernel window keep the value
`activation(0 + bias)`). -/

def Conv1D.forwardRows (xsize strides : Nat) : Nat := xsize / strides

/-- Output length claimed by the spec's floor/ceil convolution arithmetic
for the 1-d case, `ceil((n - kernel + 1) / strides)`. -/

def conv1dSpecOutputLength (n kernel strides : Nat) : Nat :=
  (n - kernel + 1 + (strides - 1)) / strides

/-! ## Input, Flatten, Reshape, MaxPool1D constructors (src/nano_keras/layers.py) -/

/-- State of an `Input` layer right after `Input.__init__`: the constructor
stores the declared input shape, draws `biases = np.random.randn(*input_shape)`
(the random samples are abstracted as the `samples` argument below) and sets
`weights = np.array([])` (an empty 1-d array, shape `(0,)`). -/

structure InputState where
  input_shape : List Nat
  name : String
  biases : NDArray
  weights : NDArray

/-- Embedding of `Input.__init__` for a tuple-valued `input_shape`. -/

def Input.init (input_shape : List Nat) (samples : Nat → ℚ) (name : String) : InputState :=
  { input_shape := input_shape, name := name,
    biases := ⟨input_shape, samples⟩,
    weights := ⟨[0], fun _ => 0⟩ }

/-- Attributes of a `Flatten` layer right after `Flatten.__init__`: the
constructor stores only `name` — no `weights`/`biases` attribute is ever
set (recorded as `none`). -/

structure FlattenInitState where
  name : String
  weights : Option NDArray
  biases : Option NDArray

/-- Embedding of `Flatten.__init__`. -/

def Flatten.init (name : String) : FlattenInitState := ⟨name, none, none⟩

/-- Attributes of a `Reshape` layer right after `Reshape.__init__`. -/

structure ReshapeInitState where
  target_shape : List Nat
  name : String
  weights : Option NDArray
  biases : Option NDArray

/-- Embedding of `Reshape.__init__`. -/

def Reshape.init (target_shape : List Nat) (name : String) : ReshapeInitState :=
  ⟨target_shape, name, none, none⟩

/-- Attributes of a `MaxPool1D` layer right after `MaxPool1D.__init__`. -/

structure MaxPool1DState where
  kernel_size : Nat
  strides : Nat
  name : String
  weights : Option NDArray
  biases : Option NDArray

/-- Embedding of `MaxPool1D.__init__`. -/

def MaxPool1D.init (kernel_size strides : Nat) (name : String) : MaxPool1DState :=
  ⟨kernel_size, strides, name, none, none⟩

/-! ## Flatten / Reshape backward path (src/nano_keras/layers.py) -/

/-- Attributes of a `Flatten` layer at backpropagation time:
`original_shape` was recorded by the matching forward call and
`next_layer_shape` by `output_shape` (the successor's reported shape, an
int in the Dense-successor configurations modelled here). -/

structure FlattenState where
  original_shape : List Nat
  next_layer_shape : Nat

/-- Embedding of `Flatten.__call__`: records the input's shape and returns
the ravelled array together with the recorded shape. -/

def Flatten.call (x : NDArray) : NDArray × List Nat :=
  (⟨[x.size], x.flat⟩, x.shape)

/-- Embedding of `Flatten.backpropagate`: the code attempts
`gradient.reshape(self.next_layer_shape, *self.original_shape)` — note the
target is the successor's shape *prepended* to the recorded original shape —
and on any failure (size mismatch) returns the gradient unchanged. -/

def Flatten.backpropagate (st : FlattenState) (gradient : NDArray) : NDArray :=
  if (st.next_layer_shape :: st.original_shape).prod = gradient.size then
    ⟨st.next_layer_shape :: st.original_shape, gradient.flat⟩
  else gradient

/-- Attributes of a `Reshape` layer at backpropagation time. -/

structure ReshapeState where
  target_shape : List Nat
  original_shape : List Nat
  next_layer_shape : Nat

/-- Embedding of `Reshape.backpropagate` (same body as
`Flatten.backpropagate`: reshape to `(next_layer_shape, *original_shape)`,
silently falling back to the unreshaped gradient). -/

def Reshape.backpropagate (st : ReshapeState) (gradient : NDArray) : NDArray :=
  if (st.next_layer_shape :: st.original_shape).prod = gradient.size then
    ⟨st.next_layer_shape :: st.original_shape, gradient.flat⟩
  else gradient

/-- Concrete Flatten state for the C6 witness. -/

def c6stF : FlattenState := ⟨[2, 2], 3⟩

/-- Concrete Reshape state for the C6 witness. -/

def c6stR : ReshapeState := ⟨[3], [2], 4⟩

/-- Concrete size-incompatible gradients for the C6 witness. -/

def c6g : NDArray := ⟨[5], fun _ => 1⟩

/-- Concrete size-incompatible gradient for Reshape in the C6 witness. -/

def c6h : NDArray := ⟨[7], fun _ => 2⟩

/-! ## Dense layer backward pass (src/nano_keras/layers.py) -/

/-- Elementwise map over a rank-1 array (elementwise
`activation.compute_derivative`). -/

def map1 (f : ℚ → ℚ) (a : Arr1) : Arr1 := ⟨a.size, fun i => f (a.val i)⟩

/-- State of a `Dense` layer at backpropagation time: weights of shape
`(previous_units, units)`, biases of shape `(units,)`, the recorded forward
input `inputs` and the two rows `output`/`weighted_sum` of the recorded
`self.outputs = np.array([output, weighted_sum])` stack, plus the optional
regulizer (`compute_loss(gradient, weights, biases)`). -/

structure DenseState where
  weights : Arr2
  biases : Arr1
  inputs : Arr1
  output : Arr1
  weighted_sum : Arr1
  regulizer : Option (Arr1 → Arr2 → Arr1 → Arr1)

/-- Embedding of `Dense.backpropagate` with activation derivative
`actDeriv`: applies the optional regulizer, computes the scalar
`delta = np.average([gradient * act'(output), gradient * act'(weighted_sum)])`
(a mean over all `2 * units` elements of the stacked products), forms
`weights_gradients = np.outer(inputs, delta)` (shape `(inputs.size, 1)`),
calls `optimizer.apply_gradients` with the 0-d bias gradient
`np.array(delta)` (embedded as a size-1 array, which broadcasts the same
way), stores the returned parameters and returns
`np.dot(delta, self.weights.T)` computed with the *updated* weights —
`np.dot` with a 0-d operand is scalar multiplication, so the output
gradient has shape `(units, previous_units)`. -/

def Dense.backpropagate (actDeriv : ℚ → ℚ) (st : DenseState) (opt : AdaMaxState)
    (gradient : Arr1) : Except String (DenseState × AdaMaxState × Arr2) := do
  let gradient :=
    match st.regulizer with
    | some r => r gradient st.weights st.biases
    | none => gradient
  let p1 ← bop1 (fun g d => g * d) gradient (map1 actDeriv st.output)
  let p2 ← bop1 (fun g d => g * d) gradient (map1 actDeriv st.weighted_sum)
  let delta : ℚ := (sumR p1.size p1.val + sumR p2.size p2.val)
    / ((p1.size : ℚ) + (p2.size : ℚ))
  let weights_gradients : Arr2 := ⟨st.inputs.size, 1, fun i _ => st.inputs.val i * delta⟩
  match adamaxApplyGradients opt weights_gradients ⟨1, fun _ => delta⟩ st.weights st.biases with
  | .error e => .error e
  | .ok (opt2, w2, b2) =>
      .ok ({ st with weights := w2, biases := b2 }, opt2,
           ⟨w2.cols, w2.rows, fun i j => delta * w2.val j i⟩)

/-- Output gradient extracted from a successful `Dense.backpropagate`
result (junk value on the error branch, which the lemmas exclude). -/

def denseResGrad (r : Except String (DenseState × AdaMaxState × Arr2)) : Arr2 :=
  match r with
  | .ok (_, _, g) => g
  | .error _ => ⟨0, 0, fun _ _ => 0⟩

/-- Row-major flattening of a rank-2 array into an `NDArray` of shape
`[rows, cols]` (the representation in which a gradient array reaches the
preceding layer's `backpropagate`). -/

def toNDArray2 (a : Arr2) : NDArray :=
  ⟨[a.rows, a.cols], fun k => a.val (k / a.cols) (k % a.cols)⟩

/-- The scalar `delta` computed by `Dense.backpropagate` in a
shape-matched call (`np.average` of the stacked products
`gradient * act'(output)` and `gradient * act'(weighted_sum)`, a mean over
all `2 * units` elements). -/

def denseDelta (actDeriv : ℚ → ℚ) (st : DenseState) (gradient : Arr1) : ℚ :=
  (sumR st.weights.cols (fun i =>
      gradient.val (bidx st.weights.cols i) * actDeriv (st.output.val (bidx st.weights.cols i)))
    + sumR st.weights.cols (fun i =>
      gradient.val (bidx st.weights.cols i)
        * actDeriv (st.weighted_sum.val (bidx st.weights.cols i))))
  / ((st.weights.cols : ℚ) + (st.weights.cols : ℚ))

/-- C5 counterexample inputs: a Dense layer with weights `4 × 3`
(prev = 4 = 2*2 pre-flatten, units = 3). -/

def c5dense : DenseState :=
  ⟨⟨4, 3, fun _ _ => 1⟩, ⟨3, fun _ => 0⟩, ⟨4, fun _ => 1⟩,
   ⟨3, fun _ => 1⟩, ⟨3, fun _ => 1⟩, none⟩

/-- Fresh optimizer for the C5 counterexample. -/

def c5opt : AdaMaxState :=
  ⟨1, 1/2, 1/2, 1, false, ⟨0, 0, fun _ _ => 0⟩, ⟨0, 0, fun _ _ => 0⟩,
   ⟨0, fun _ => 0⟩, ⟨0, fun _ => 0⟩, 0⟩

/-- Loss gradient of shape `(3,)` for the C5 counterexample. -/

def c5grad : Arr1 := ⟨3, fun _ => 1⟩

/-- Flatten state for the C5 counterexample: the forward call recorded the
pre-flatten shape `S = (2, 2)` and `output_shape` recorded the following
Dense layer's `units = 3`. -/

def c5flat : FlattenState := ⟨[2, 2], 3⟩

/-! ## Weight initializers (src/nano_keras/layers.py, `Layer` staticmethods) -/

/-- Rank-1 real array (bias vectors produced by the initializers; the
element dtype — float32/float64 — is abstracted to the exact reals). -/

structure RArr1 where
  size : Nat
  val : Nat → ℝ

/-- Embedding of `Layer.xavier_intialization` (source spelling kept): the
standard-normal samples are abstracted as the argument `z`; the code then
rescales `weights = 2 * weights - 1` and multiplies by
`np.sqrt(6 / (previous_units + current_units))`, returning the weights
together with `np.zeros(current_units)` as biases. -/

noncomputable def Layer.xavier_intialization (z : Nat → Nat → ℝ)
    (previous_units current_units : Nat) : (Nat → Nat → ℝ) × RArr1 :=
  let weights := z
  let weights := fun i j => 2 * weights i j - 1
  let weights := fun i j =>
    weights i j * Real.sqrt (6 / ((previous_units : ℝ) + (current_units : ℝ)))
  (weights, ⟨current_units, fun _ => 0⟩)

/-- Embedding of `Layer.he_intialization` (source spelling kept): the
standard-normal samples `z` are multiplied by
`np.sqrt(2. / previous_units)`, and the biases are
`np.zeros(current_units)`. -/

noncomputable def Layer.he_intialization (z : Nat → Nat → ℝ)
    (previous_units current_units : Nat) : (Nat → Nat → ℝ) × RArr1 :=
  let weights := z
  let weights := fun i j => weights i j * Real.sqrt (2 / (previous_units : ℝ))
  (weights, ⟨current_units, fun _ => 0⟩)

/-! ## Theorems -/

/-- Broadcasting a shape against itself keeps it. -/
theorem bdim_self (a : Nat) : bdim a a = some a := by simp [bdim]

/-- Broadcasting a shape against a length-1 axis keeps it. -/
theorem bdim_one_right (a : Nat) : bdim a 1 = some a := by
  unfold bdim
  by_cases h : a = 1 <;> simp [h]

/-- Shape arithmetic for the fill-then-slice resize. -/
theorem min_max_right (a b : Nat) : min (max a b) b = b :=
  min_eq_right (le_max_right a b)

/-- Index into a broadcast axis is the index itself when it is in range. -/
theorem bidx_lt (n i : Nat) (h : i < n) : bidx n i = i := by
  unfold bidx
  split
  · omega
  · rfl

/-- Reduction of a monadic bind on a successful step. -/
theorem exceptOkBind {ε α β : Type} (a : α) (f : α → Except ε β) :
    (Except.ok a >>= f : Except ε β) = f a := rfl

/-- Success-path characterisation of `AdaMax.apply_gradients`: whenever the
gradient shapes broadcast against the parameter shapes and the bias
accumulators either are still unallocated or match the bias shape, the call
succeeds and every component of the result is given pointwise by the AdaMax
update formulas (with the accumulators first resized to the parameter
shapes). -/
theorem adamax_apply_ok (st : AdaMaxState) (wg : Arr2) (bg : Arr1) (w : Arr2) (b : Arr1)
    (hwrow : bdim w.rows wg.rows = some w.rows)
    (hwcol : bdim w.cols wg.cols = some w.cols)
    (hbsz : bdim b.size bg.size = some b.size)
    (hb : st.m_w.size = 0 ∨ (st.m_b.size = b.size ∧ st.u_b.size = b.size)) :
    exceptIsOk (adamaxApplyGradients st wg bg w b) = true ∧
    (resState (adamaxApplyGradients st wg bg w b)).t = st.t + 1 ∧
    (resState (adamaxApplyGradients st wg bg w b)).m_w.rows = w.rows ∧
    (resState (adamaxApplyGradients st wg bg w b)).m_w.cols = w.cols ∧
    (resState (adamaxApplyGradients st wg bg w b)).u_w.rows = w.rows ∧
    (resState (adamaxApplyGradients st wg bg w b)).u_w.cols = w.cols ∧
    (resState (adamaxApplyGradients st wg bg w b)).m_b.size = b.size ∧
    (resState (adamaxApplyGradients st wg bg w b)).u_b.size = b.size ∧
    (resW (adamaxApplyGradients st wg bg w b)).rows = w.rows ∧
    (resW (adamaxApplyGradients st wg bg w b)).cols = w.cols ∧
    (resB (adamaxApplyGradients st wg bg w b)).size = b.size ∧
    (∀ i j, i < w.rows → j < w.cols →
      (resState (adamaxApplyGradients st wg bg w b)).m_w.val i j
        = st.beta1 * (if st.m_w.size = 0 then 0
            else if i < st.m_w.rows ∧ j < st.m_w.cols then st.m_w.val i j else 0)
          + (1 - st.beta1) * wg.val (bidx wg.rows i) (bidx wg.cols j) ∧
      (resState (adamaxApplyGradients st wg bg w b)).u_w.val i j
        = max (st.beta2 * (if st.m_w.size = 0 then 0
            else if i < st.u_w.rows ∧ j < st.u_w.cols then st.u_w.val i j else 0))
            |wg.val (bidx wg.rows i) (bidx wg.cols j)| ∧
      (resW (adamaxApplyGradients st wg bg w b)).val i j
        = w.val i j + st.learning_rate / (1 - st.beta1 ^ (st.t + 1))
            * ((resState (adamaxApplyGradients st wg bg w b)).m_w.val i j
               / ((resState (adamaxApplyGradients st wg bg w b)).u_w.val i j + st.e))) ∧
    (∀ i, i < b.size →
      (resState (adamaxApplyGradients st wg bg w b)).m_b.val i
        = st.beta1 * (if st.m_w.size = 0 then 0 else st.m_b.val i)
          + (1 - st.beta1) * bg.val (bidx bg.size i) ∧
      (resState (adamaxApplyGradients st wg bg w b)).u_b.val i
        = max (st.beta2 * (if st.m_w.size = 0 then 0 else st.u_b.val i))
            |bg.val (bidx bg.size i)| ∧
      (resB (adamaxApplyGradients st wg bg w b)).val i
        = b.val i + st.learning_rate / (1 - st.beta1 ^ (st.t + 1))
            * ((resState (adamaxApplyGradients st wg bg w b)).m_b.val i
               / ((resState (adamaxApplyGradients st wg bg w b)).u_b.val i + st.e))) := by
  by_cases h0 : st.m_w.size = 0
  · rcases hf : st.adjust_biases_shape with _ | _ <;>
    · simp [adamaxApplyGradients, h0, hf,
        slice2, fillArray2, slice1, fillArray1, smul1, smul2, abs1, abs2, sadd1, sadd2,
        zerosLike1, zerosLike2,
        min_max_right, bop2, bop1, iadd1, iadd2, bdim_self, hwrow, hwcol, hbsz,
        exceptOkBind, exceptIsOk, resState, resW, resB, bidx_lt]
      constructor
      · intro i j hi hj
        simp [bidx_lt _ _ hi, bidx_lt _ _ hj, hi, hj, Nat.not_le_of_gt hi, Nat.not_le_of_gt hj]
      · intro i hi
        simp [bidx_lt _ _ hi, hi, Nat.not_le_of_gt hi]
  · obtain ⟨hmb, hub⟩ := hb.resolve_left h0
    rcases hf : st.adjust_biases_shape with _ | _ <;>
    · simp [adamaxApplyGradients, h0, hf,
        slice2, fillArray2, slice1, fillArray1, smul1, smul2, abs1, abs2, sadd1, sadd2,
        min_max_right, bop2, bop1, iadd1, iadd2, bdim_self, hwrow, hwcol, hmb, hub, hbsz,
        exceptOkBind, exceptIsOk, resState, resW, resB, bidx_lt]
      constructor
      · intro i j hi hj
        simp [bidx_lt _ _ hi, bidx_lt _ _ hj, hi, hj, Nat.not_le_of_gt hi, Nat.not_le_of_gt hj]
      · intro i hi
        simp [bidx_lt _ _ hi, hi, Nat.not_le_of_gt hi]

/-- C3: on every AdaMax `apply_gradients` call (here: any call whose
gradient and accumulator shapes match the parameter shapes, so that the
shape-resizing step is the identity), with `t` the step counter after its
increment, the optimizer updates `m := beta1*m + (1-beta1)*gradient` and
`u := max(beta2*u, |gradient|)` independently for the weight and the bias
branch, then updates each parameter in place by
`param += (learning_rate / (1 - beta1^t)) * (m / (u + epsilon))`, and
returns the updated `(weights, biases)`. -/
theorem C3_adamax_update_rule (st : AdaMaxState) (wg : Arr2) (bg : Arr1) (w : Arr2) (b : Arr1)
    (hmwr : st.m_w.rows = w.rows) (hmwc : st.m_w.cols = w.cols)
    (huwr : st.u_w.rows = w.rows) (huwc : st.u_w.cols = w.cols)
    (hmb : st.m_b.size = b.size) (hub : st.u_b.size = b.size)
    (hwgr : wg.rows = w.rows) (hwgc : wg.cols = w.cols)
    (hbg : bg.size = b.size) (hw0 : 0 < w.size) :
    exceptIsOk (adamaxApplyGradients st wg bg w b) = true ∧
    (resState (adamaxApplyGradients st wg bg w b)).t = st.t + 1 ∧
    (∀ i j, i < w.rows → j < w.cols →
      (resState (adamaxApplyGradients st wg bg w b)).m_w.val i j
        = st.beta1 * st.m_w.val i j + (1 - st.beta1) * wg.val i j ∧
      (resState (adamaxApplyGradients st wg bg w b)).u_w.val i j
        = max (st.beta2 * st.u_w.val i j) |wg.val i j| ∧
      (resW (adamaxApplyGradients st wg bg w b)).val i j
        = w.val i j + st.learning_rate / (1 - st.beta1 ^ (st.t + 1))
            * ((resState (adamaxApplyGradients st wg bg w b)).m_w.val i j
               / ((resState (adamaxApplyGradients st wg bg w b)).u_w.val i j + st.e))) ∧
    (∀ i, i < b.size →
      (resState (adamaxApplyGradients st wg bg w b)).m_b.val i
        = st.beta1 * st.m_b.val i + (1 - st.beta1) * bg.val i ∧
      (resState (adamaxApplyGradients st wg bg w b)).u_b.val i
        = max (st.beta2 * st.u_b.val i) |bg.val i| ∧
      (resB (adamaxApplyGradients st wg bg w b)).val i
        = b.val i + st.learning_rate / (1 - st.beta1 ^ (st.t + 1))
            * ((resState (adamaxApplyGradients st wg bg w b)).m_b.val i
               / ((resState (adamaxApplyGradients st wg bg w b)).u_b.val i + st.e))) ∧
    (resW (adamaxApplyGradients st wg bg w b)).rows = w.rows ∧
    (resW (adamaxApplyGradients st wg bg w b)).cols = w.cols ∧
    (resB (adamaxApplyGradients st wg bg w b)).size = b.size := by
  have hwrow : bdim w.rows wg.rows = some w.rows := by rw [hwgr]; exact bdim_self _
  have hwcol : bdim w.cols wg.cols = some w.cols := by rw [hwgc]; exact bdim_self _
  have hbsz : bdim b.size bg.size = some b.size := by rw [hbg]; exact bdim_self _
  have H := adamax_apply_ok st wg bg w b hwrow hwcol hbsz (Or.inr ⟨hmb, hub⟩)
  obtain ⟨h1, h2, _, _, _, _, _, _, h9, h10, h11, H12, H13⟩ := H
  have hmw0 : ¬ st.m_w.size = 0 := by
    have : st.m_w.size = w.size := by simp [Arr2.size, hmwr, hmwc]
    omega
  refine ⟨h1, h2, ?_, ?_, h9, h10, h11⟩
  · intro i j hi hj
    obtain ⟨g1, g2, g3⟩ := H12 i j hi hj
    simp only [if_neg hmw0, hmwr, hmwc, huwr, huwc, hwgr, hwgc, hi, hj, and_self,
      if_true, bidx_lt _ _ hi, bidx_lt _ _ hj] at g1 g2
    exact ⟨g1, g2, g3⟩
  · intro i hi
    obtain ⟨g1, g2, g3⟩ := H13 i hi
    simp only [if_neg hmw0, hbg, bidx_lt _ _ hi] at g1 g2
    exact ⟨g1, g2, g3⟩

/-- Witness for C3 at a concrete shape-matched call. -/
theorem C3_adamax_update_rule_witness :
    exceptIsOk (adamaxApplyGradients c3st c3wg c3bg c3w c3b) = true ∧
    (resState (adamaxApplyGradients c3st c3wg c3bg c3w c3b)).m_w.val 0 0
      = c3st.beta1 * c3st.m_w.val 0 0 + (1 - c3st.beta1) * c3wg.val 0 0 ∧
    (resState (adamaxApplyGradients c3st c3wg c3bg c3w c3b)).m_b.val 0
      = c3st.beta1 * c3st.m_b.val 0 + (1 - c3st.beta1) * c3bg.val 0 :=
  ⟨(C3_adamax_update_rule c3st c3wg c3bg c3w c3b rfl rfl rfl rfl rfl rfl rfl rfl rfl
      (by decide)).1,
   ((C3_adamax_update_rule c3st c3wg c3bg c3w c3b rfl rfl rfl rfl rfl rfl rfl rfl rfl
      (by decide)).2.2.1 0 0 (by decide) (by decide)).1,
   ((C3_adamax_update_rule c3st c3wg c3bg c3w c3b rfl rfl rfl rfl rfl rfl rfl rfl rfl
      (by decide)).2.2.2.1 0 (by decide)).1⟩

/-- C4 counterexample: with the default `adjust_biases_shape = False`, the
bias accumulators are *not* resized, so a first `apply_gradients` call with
bias shape `(4,)` followed by a second call whose bias (and bias gradient)
shape grew to `(6,)` raises a broadcasting `ValueError` — contradicting the
claim that all four accumulators are resized on every call and that a call
after a parameter-shape growth does not raise. -/
theorem C4_counterexample :
    exceptIsOk (adamaxApplyGradients c4fresh c4wg1 c4bg1 c4w1 c4b1) = true ∧
    exceptIsOk (adamaxApplyGradients
      (resState (adamaxApplyGradients c4fresh c4wg1 c4bg1 c4w1 c4b1))
      c4wg2 c4bg2 c4w2 c4b2) = false := by decide

/-- C4 (amended): on every `apply_gradients` call the *weight* accumulators
`m_w, u_w` are resized — zero-extended or truncated — to the current weight
shape before the numeric update; in particular when the weight shape grows
between two consecutive calls (bias shape unchanged) the call does not raise
and previously accumulated values in the overlapping region are preserved
(they enter the moment update; positions outside the old shape enter as
zero).  The bias accumulators are resized only when `adjust_biases_shape`
is set. -/
theorem C4_weight_accumulator_resize (st : AdaMaxState) (wg : Arr2) (bg : Arr1)
    (w : Arr2) (b : Arr1)
    (h0 : st.m_w.size ≠ 0)
    (hwgr : wg.rows = w.rows) (hwgc : wg.cols = w.cols)
    (hmb : st.m_b.size = b.size) (hub : st.u_b.size = b.size) (hbg : bg.size = b.size) :
    exceptIsOk (adamaxApplyGradients st wg bg w b) = true ∧
    (resState (adamaxApplyGradients st wg bg w b)).m_w.rows = w.rows ∧
    (resState (adamaxApplyGradients st wg bg w b)).m_w.cols = w.cols ∧
    (resState (adamaxApplyGradients st wg bg w b)).u_w.rows = w.rows ∧
    (resState (adamaxApplyGradients st wg bg w b)).u_w.cols = w.cols ∧
    (∀ i j, i < w.rows → j < w.cols →
      (resState (adamaxApplyGradients st wg bg w b)).m_w.val i j
        = st.beta1 * (if i < st.m_w.rows ∧ j < st.m_w.cols then st.m_w.val i j else 0)
          + (1 - st.beta1) * wg.val i j ∧
      (resState (adamaxApplyGradients st wg bg w b)).u_w.val i j
        = max (st.beta2 * (if i < st.u_w.rows ∧ j < st.u_w.cols then st.u_w.val i j else 0))
            |wg.val i j|) := by
  have hwrow : bdim w.rows wg.rows = some w.rows := by rw [hwgr]; exact bdim_self _
  have hwcol : bdim w.cols wg.cols = some w.cols := by rw [hwgc]; exact bdim_self _
  have hbsz : bdim b.size bg.size = some b.size := by rw [hbg]; exact bdim_self _
  have H := adamax_apply_ok st wg bg w b hwrow hwcol hbsz (Or.inr ⟨hmb, hub⟩)
  obtain ⟨h1, _, h3, h4, h5, h6, _, _, _, _, _, H12, _⟩ := H
  refine ⟨h1, h3, h4, h5, h6, ?_⟩
  intro i j hi hj
  obtain ⟨g1, g2, _⟩ := H12 i j hi hj
  simp only [if_neg h0, hwgr, hwgc, bidx_lt _ _ hi, bidx_lt _ _ hj] at g1 g2
  exact ⟨g1, g2⟩

/-- Witness for the amended C4 at a concrete `[4,4] → [4,6]` growth: the
call succeeds, the accumulator is resized to 4×6, the overlapping entry
`(0,0)` keeps the accumulated value and the new entry `(0,5)` is
zero-extended. -/
theorem C4_weight_accumulator_resize_witness :
    exceptIsOk (adamaxApplyGradients c4gst c4gwg c4gbg c4gw c4gb) = true ∧
    (resState (adamaxApplyGradients c4gst c4gwg c4gbg c4gw c4gb)).m_w.cols = c4gw.cols ∧
    (resState (adamaxApplyGradients c4gst c4gwg c4gbg c4gw c4gb)).m_w.val 0 0
      = c4gst.beta1 * (if 0 < c4gst.m_w.rows ∧ 0 < c4gst.m_w.cols then c4gst.m_w.val 0 0 else 0)
        + (1 - c4gst.beta1) * c4gwg.val 0 0 ∧
    (resState (adamaxApplyGradients c4gst c4gwg c4gbg c4gw c4gb)).m_w.val 0 5
      = c4gst.beta1 * (if 0 < c4gst.m_w.rows ∧ 5 < c4gst.m_w.cols then c4gst.m_w.val 0 5 else 0)
        + (1 - c4gst.beta1) * c4gwg.val 0 5 :=
  ⟨(C4_weight_accumulator_resize c4gst c4gwg c4gbg c4gw c4gb (by decide) rfl rfl rfl rfl
      rfl).1,
   (C4_weight_accumulator_resize c4gst c4gwg c4gbg c4gw c4gb (by decide) rfl rfl rfl rfl
      rfl).2.2.1,
   ((C4_weight_accumulator_resize c4gst c4gwg c4gbg c4gw c4gb (by decide) rfl rfl rfl rfl
      rfl).2.2.2.2.2 0 0 (by decide) (by decide)).1,
   ((C4_weight_accumulator_resize c4gst c4gwg c4gbg c4gw c4gb (by decide) rfl rfl rfl rfl
      rfl).2.2.2.2.2 0 5 (by decide) (by decide)).1⟩

/-- C2 counterexample: the exception raised by `MaxPool2D.backpropagate` is
a plain `Exception`, not the `NotImplementedError` the claim names. -/
theorem C2_counterexample :
    raisedKind (MaxPool2D.backpropagate c2st c2opt c2grad).1 = some PyExcKind.exception ∧
    PyExcKind.exception ≠ PyExcKind.notImplementedError := by decide

/-- C2 (amended): for every gradient and every optimizer, calling
`MaxPool2D.backpropagate` raises a plain `Exception` (not a
`NotImplementedError`) whose message states that MaxPool2D backpropagation
is not implemented, and neither the layer state nor the optimizer state is
mutated by the call. -/
theorem C2_maxpool2d_backprop_raises (st : MaxPool2DState) (opt : AdaMaxState)
    (gradient : NDArray) :
    MaxPool2D.backpropagate st opt gradient
      = (.error ⟨PyExcKind.exception,
          "MaxPool2D backpropagation is not implemented yet, if you really need it set the strides in Conv2D to something other than (1, 1)"⟩,
         st, opt) := rfl

/-- C10: for every 3-d input of shape `(H, W, C)` (valid pooling geometry),
the forward pass overwrites the last output spatial position with the raw
input values at the input's last spatial position — for every channel —
while for 2-d inputs every output position, the last one included, holds
its window maximum (no overwrite occurs). -/
theorem C10_maxpool2d_last_position_overwrite (st : MaxPool2DState)
    (x3 : Nat → Nat → Nat → ℚ) (x2 : Nat → Nat → ℚ) (H W C : Nat)
    (hs1 : 1 ≤ st.strides.1) (hs2 : 1 ≤ st.strides.2)
    (hp1 : 1 ≤ st.pool_size.1) (hp2 : 1 ≤ st.pool_size.2)
    (hpH : st.pool_size.1 ≤ H) (hpW : st.pool_size.2 ≤ W) (hC : 1 ≤ C) :
    (∀ c, c < C →
      MaxPool2D.call3d st x3 H W C
          ((H - st.pool_size.1) / st.strides.1 + 1 - 1)
          ((W - st.pool_size.2) / st.strides.2 + 1 - 1) c
        = x3 (H - 1) (W - 1) c) ∧
    (∀ i j, i < (H - st.pool_size.1) / st.strides.1 + 1 →
        j < (W - st.pool_size.2) / st.strides.2 + 1 →
      MaxPool2D.call2d st x2 i j
        = maxR st.pool_size.1 (fun di =>
            maxR st.pool_size.2 (fun dj =>
              x2 (i * st.strides.1 + di) (j * st.strides.2 + dj)))) := by
  constructor
  · intro c _
    simp [MaxPool2D.call3d]
  · intro i j _ _
    rfl

/-- Witness for C10: at the concrete `(2,2,1)` input the single output
position is the overwritten raw input value, and on the spec's 4×4 2-d
example the `(0,0)` output entry is its window maximum. -/
theorem C10_maxpool2d_last_position_overwrite_witness :
    MaxPool2D.call3d c10st c10x3 2 2 1
        ((2 - c10st.pool_size.1) / c10st.strides.1 + 1 - 1)
        ((2 - c10st.pool_size.2) / c10st.strides.2 + 1 - 1) 0
      = c10x3 (2 - 1) (2 - 1) 0 ∧
    MaxPool2D.call2d c10st c10x2 0 0
      = maxR c10st.pool_size.1 (fun di =>
          maxR c10st.pool_size.2 (fun dj =>
            c10x2 (0 * c10st.strides.1 + di) (0 * c10st.strides.2 + dj))) :=
  ⟨(C10_maxpool2d_last_position_overwrite c10st c10x3 c10x2 2 2 1
      (by decide) (by decide) (by decide) (by decide) (by decide) (by decide)
      (by decide)).1 0 (by decide),
   (C10_maxpool2d_last_position_overwrite c10st c10x3 c10x2 2 2 1
      (by decide) (by decide) (by decide) (by decide) (by decide) (by decide)
      (by decide)).2 0 0 (by decide) (by decide)⟩

/-- C1 (code bug): the im2col lowering implemented by `Conv2D` does not
reproduce the direct convolution.  The column matrix orders a patch with
the channel index slowest (`k = repeat(arange(channels), kh*kw)`), while
`weights.reshape(filters, -1)` flattens the `(kh, kw, channels, filters)`
weight tensor with the channel index next-to-fastest, so the matrix product
pairs mismatched entries.  At kernel `(2,1)`, strides `(1,1)`, 1 filter,
input shape `(2,1,2)` with `x[1,0,0] = 1` and `w[0,0,1,0] = 1` (identity
activation), the code produces `1` at output `(0,0,0)` while the direct
convolution of the same data produces `0`. -/
theorem C1_conv2d_im2col_diverges :
    Conv2D.forward (fun z => z) (2, 1) (1, 1) 1 c1w c1x 2 1 2 0 0 0 = 1 ∧
    conv2dDirectSpec (fun z => z) (2, 1) (1, 1) c1w c1x 2 0 0 0 = 0 ∧
    Conv2D.forward (fun z => z) (2, 1) (1, 1) 1 c1w c1x 2 1 2 0 0 0
      ≠ conv2dDirectSpec (fun z => z) (2, 1) (1, 1) c1w c1x 2 0 0 0 := by
  refine ⟨?_, ?_, ?_⟩ <;>
    norm_num [Conv2D.forward, conv2dDirectSpec, Conv2D.weightsCol, Conv2D.im2col,
      sumR, c1w, c1x]

/-- C8 (code bug): for a predecessor reporting the 1-d output length `4`
(a bare int), a Conv1D layer with `kernel_size = 2`, `strides = 1` and `5`
filters reports `output_shape = (1, 5)` — because the code takes
`np.array(input_shape).size`, which is `1` for any int, instead of using
the length itself — while the claimed convolution arithmetic gives `3` and
the forward pass on a size-4 input allocates `4` output rows.  All three
disagree, so `output_shape` is neither the floor/ceil formula nor the
forward output length. -/
theorem C8_conv1d_output_shape_diverges :
    Conv1D.output_shape 1 5 (.inl 4) = (1, 5) ∧
    conv1dSpecOutputLength 4 2 1 = 3 ∧
    Conv1D.forwardRows 4 1 = 4 ∧
    (Conv1D.output_shape 1 5 (.inl 4)).1 ≠ conv1dSpecOutputLength 4 2 1 ∧
    (Conv1D.output_shape 1 5 (.inl 4)).1 ≠ Conv1D.forwardRows 4 1 := by
  refine ⟨rfl, rfl, rfl, by decide, by decide⟩

/-- C7 counterexample: an `Input` layer constructed with `input_shape = (2,)`
carries a bias tensor of size 2 — not an empty tensor — refuting the claim
that every layer in the non-trainable list (which includes `Input`) carries
empty weight and bias tensors. -/
theorem C7_counterexample :
    (Input.init [2] (fun _ => 0) "Input").biases.size = 2 ∧ (2 : Nat) ≠ 0 := by
  exact ⟨rfl, by decide⟩

/-- C7 (amended): `Flatten`, `Reshape`, `MaxPool1D` and `MaxPool2D` never
set weight or bias attributes at construction (there is no empty tensor —
the attributes simply do not exist), while `Input` sets an empty weights
tensor together with a *randomly initialised bias tensor of the declared
input shape* (non-empty whenever the shape has no zero dimension). -/
theorem C7_nontrainable_layer_tensors (input_shape : List Nat) (samples : Nat → ℚ)
    (nm : String) (target_shape : List Nat) (k s : Nat) (p ss : Nat × Nat) :
    (Input.init input_shape samples nm).weights.size = 0 ∧
    (Input.init input_shape samples nm).biases.shape = input_shape ∧
    (Flatten.init nm).weights = none ∧
    (Flatten.init nm).biases = none ∧
    (Reshape.init target_shape nm).weights = none ∧
    (Reshape.init target_shape nm).biases = none ∧
    (MaxPool1D.init k s nm).weights = none ∧
    (MaxPool1D.init k s nm).biases = none ∧
    (MaxPool2D.init p ss nm).weights = none ∧
    (MaxPool2D.init p ss nm).biases = none :=
  ⟨rfl, rfl, rfl, rfl, rfl, rfl, rfl, rfl, rfl, rfl⟩

/-- C6: whenever the incoming gradient's size is incompatible with the
recorded reshape target, `Flatten.backpropagate` and `Reshape.backpropagate`
do not raise: each returns the incoming gradient unchanged. -/
theorem C6_reshape_silent_fallback (stF : FlattenState) (stR : ReshapeState)
    (g h : NDArray)
    (hF : (stF.next_layer_shape :: stF.original_shape).prod ≠ g.size)
    (hR : (stR.next_layer_shape :: stR.original_shape).prod ≠ h.size) :
    Flatten.backpropagate stF g = g ∧ Reshape.backpropagate stR h = h := by
  unfold Flatten.backpropagate Reshape.backpropagate
  rw [if_neg hF, if_neg hR]
  exact ⟨rfl, rfl⟩

/-- Witness for C6: target size 12 against gradient size 5 (Flatten) and
target size 8 against gradient size 7 (Reshape) both fall back to the
unchanged gradient. -/
theorem C6_reshape_silent_fallback_witness :
    Flatten.backpropagate c6stF c6g = c6g ∧ Reshape.backpropagate c6stR c6h = c6h :=
  C6_reshape_silent_fallback c6stF c6stR c6g c6h (by decide) (by decide)

/-- A successful `Except` computation yields a value. -/
theorem exceptIsOk_exists {ε α : Type} (r : Except ε α) (h : exceptIsOk r = true) :
    ∃ a, r = .ok a := by
  cases r with
  | ok a => exact ⟨a, rfl⟩
  | error e => simp [exceptIsOk] at h

/-- Reduction of `Dense.backpropagate` on a shape-matched, regulizer-free
call: the broadcasting steps succeed and the call reduces to the optimizer
update on `np.outer(inputs, delta)` and the 0-d `delta`, followed by the
construction of the transposed output gradient. -/
theorem dense_backprop_eq (actDeriv : ℚ → ℚ) (st : DenseState) (opt : AdaMaxState)
    (gradient : Arr1)
    (hreg : st.regulizer = none)
    (hout : st.output.size = st.weights.cols)
    (hws : st.weighted_sum.size = st.weights.cols)
    (hg : gradient.size = st.weights.cols) :
    Dense.backpropagate actDeriv st opt gradient =
      (match adamaxApplyGradients opt
          ⟨st.inputs.size, 1, fun i _ => st.inputs.val i * denseDelta actDeriv st gradient⟩
          ⟨1, fun _ => denseDelta actDeriv st gradient⟩ st.weights st.biases with
       | .error e => .error e
       | .ok (opt2, w2, b2) =>
          .ok ({ st with weights := w2, biases := b2 }, opt2,
               ⟨w2.cols, w2.rows, fun i j =>
                  denseDelta actDeriv st gradient * w2.val j i⟩)) := by
  simp only [Dense.backpropagate, hreg, bop1, map1, hout, hws, hg, bdim_self,
    exceptOkBind, denseDelta]

/-- C5 counterexample: the gradient produced by `Dense.backpropagate` has
shape `(3, 4)`; fed to `Flatten.backpropagate` it is reshaped to
`(next_layer_shape, *S) = (3, 2, 2)` — not to the original pre-flatten
shape `S = (2, 2)` the claim asserts. -/
theorem C5_counterexample :
    (Flatten.backpropagate c5flat
      (toNDArray2 (denseResGrad
        (Dense.backpropagate (fun _ => 1) c5dense c5opt c5grad)))).shape = [3, 2, 2] ∧
    [3, 2, 2] ≠ [2, 2] := by
  exact ⟨by decide, by decide⟩

/-- C5 (amended): for a Flatten layer that recorded the pre-flatten input
shape `S` and whose successor Dense layer reports `units`, the gradient
produced by `Dense.backpropagate` (shape `(units, prev)` with
`prev = prod S`) is accepted by `Flatten.backpropagate` and reshaped to
`(units, *S)` — the successor's shape *prepended* to `S` — which is one
rank higher than, and never equal to, the original pre-flatten shape `S`. -/
theorem C5_flatten_dense_roundtrip (actDeriv : ℚ → ℚ) (st : DenseState)
    (opt : AdaMaxState) (gradient : Arr1) (stF : FlattenState)
    (hreg : st.regulizer = none)
    (hopt : opt.m_w.size = 0)
    (hout : st.output.size = st.weights.cols)
    (hws : st.weighted_sum.size = st.weights.cols)
    (hg : gradient.size = st.weights.cols)
    (hin : st.inputs.size = st.weights.rows)
    (horig : stF.original_shape.prod = st.weights.rows)
    (hnext : stF.next_layer_shape = st.weights.cols) :
    exceptIsOk (Dense.backpropagate actDeriv st opt gradient) = true ∧
    (Flatten.backpropagate stF (toNDArray2 (denseResGrad
        (Dense.backpropagate actDeriv st opt gradient)))).shape
      = stF.next_layer_shape :: stF.original_shape ∧
    stF.next_layer_shape :: stF.original_shape ≠ stF.original_shape := by
  have hE := dense_backprop_eq actDeriv st opt gradient hreg hout hws hg
  have hwrow : bdim st.weights.rows st.inputs.size = some st.weights.rows := by
    rw [hin]; exact bdim_self _
  have H := adamax_apply_ok opt
      ⟨st.inputs.size, 1, fun i _ => st.inputs.val i * denseDelta actDeriv st gradient⟩
      ⟨1, fun _ => denseDelta actDeriv st gradient⟩ st.weights st.biases
      hwrow (bdim_one_right _) (bdim_one_right _) (Or.inl hopt)
  obtain ⟨⟨opt2, w2, b2⟩, htr⟩ := exceptIsOk_exists _ H.1
  have h9 := H.2.2.2.2.2.2.2.2.1
  have h10 := H.2.2.2.2.2.2.2.2.2.1
  rw [htr] at h9 h10
  simp only [resW] at h9 h10
  refine ⟨?_, ?_, ?_⟩
  · rw [hE, htr]
    rfl
  · rw [hE, htr]
    simp only [denseResGrad, toNDArray2, Flatten.backpropagate, NDArray.size]
    rw [if_pos]
    simp only [List.prod_cons, List.prod_nil, h9, h10, hnext, horig]
    ring
  · intro hcontra
    have := congrArg List.length hcontra
    simp at this

/-- Witness for the amended C5 at the concrete `S = (2,2)`, `units = 3`
configuration. -/
theorem C5_flatten_dense_roundtrip_witness :
    exceptIsOk (Dense.backpropagate (fun _ => 1) c5dense c5opt c5grad) = true ∧
    (Flatten.backpropagate c5flat (toNDArray2 (denseResGrad
        (Dense.backpropagate (fun _ => 1) c5dense c5opt c5grad)))).shape
      = c5flat.next_layer_shape :: c5flat.original_shape :=
  ⟨(C5_flatten_dense_roundtrip (fun _ => 1) c5dense c5opt c5grad c5flat rfl (by decide)
      (by decide) (by decide) (by decide) (by decide) (by decide) (by decide)).1,
   (C5_flatten_dense_roundtrip (fun _ => 1) c5dense c5opt c5grad c5flat rfl (by decide)
      (by decide) (by decide) (by decide) (by decide) (by decide) (by decide)).2.1⟩

/-- C9: for every `fan_in > 0` and `fan_out > 0`, the xavier initializer
maps each standard-normal sample `z` to
`(2z - 1) * sqrt(6 / (fan_in + fan_out))` with an all-zero bias vector of
length `fan_out`, and the he initializer maps each sample to
`z * sqrt(2 / fan_in)` with an all-zero bias vector of length `fan_out`. -/
theorem C9_initializer_formulas (z : Nat → Nat → ℝ) (fan_in fan_out : Nat)
    (hin : 0 < fan_in) (hout : 0 < fan_out) :
    (Layer.xavier_intialization z fan_in fan_out).1
      = (fun i j => (2 * z i j - 1)
          * Real.sqrt (6 / ((fan_in : ℝ) + (fan_out : ℝ)))) ∧
    (Layer.xavier_intialization z fan_in fan_out).2.size = fan_out ∧
    (∀ i, (Layer.xavier_intialization z fan_in fan_out).2.val i = 0) ∧
    (Layer.he_intialization z fan_in fan_out).1
      = (fun i j => z i j * Real.sqrt (2 / (fan_in : ℝ))) ∧
    (Layer.he_intialization z fan_in fan_out).2.size = fan_out ∧
    (∀ i, (Layer.he_intialization z fan_in fan_out).2.val i = 0) :=
  ⟨rfl, rfl, fun _ => rfl, rfl, rfl, fun _ => rfl⟩

/-- Witness for C9 at `fan_in = fan_out = 1` with all samples `0`. -/
theorem C9_initializer_formulas_witness :
    (Layer.xavier_intialization (fun _ _ => 0) 1 1).1
      = (fun i j => (2 * (0 : ℝ) - 1) * Real.sqrt (6 / (((1 : Nat) : ℝ) + ((1 : Nat) : ℝ)))) ∧
    (Layer.xavier_intialization (fun _ _ => 0) 1 1).2.size = 1 ∧
    (Layer.he_intialization (fun _ _ => 0) 1 1).1
      = (fun i j => (0 : ℝ) * Real.sqrt (2 / ((1 : Nat) : ℝ))) ∧
    (Layer.he_intialization (fun _ _ => 0) 1 1).2.size = 1 :=
  ⟨(C9_initializer_formulas (fun _ _ => 0) 1 1 (by decide) (by decide)).1,
   (C9_initializer_formulas (fun _ _ => 0) 1 1 (by decide) (by decide)).2.1,
   (C9_initializer_formulas (fun _ _ => 0) 1 1 (by decide) (by decide)).2.2.2.1,
   (C9_initializer_formulas (fun _ _ => 0) 1 1 (by decide) (by decide)).2.2.2.2.1⟩
